import Mathlib

/-!
Shallow embedding of the AXTerm RF-channel simulator core
(src/Docker/rf_simulator.py, src/Scripts/kiss-monitor.py,
src/Scripts/interactive-test.py, src/Scripts/visual-test.py,
src/tnc4_config.py).

Bytes are modelled as `Nat` (Python `bytes` elements are 0..255; the
functions below are defined on all of `Nat` exactly as the source is on
0..255, and the theorems either hold unconditionally or carry explicit
range hypotheses).  Timestamps (`time.time()` values) are modelled as `ℚ`.
-/

set_option maxRecDepth 100000

namespace AXTerm

/-- KISS delimiter byte (rf_simulator.py `FEND = 0xC0`). -/
def FEND : Nat := 0xC0
/-- KISS escape byte (`FESC = 0xDB`). -/
def FESC : Nat := 0xDB
/-- Transposed FEND (`TFEND = 0xDC`). -/
def TFEND : Nat := 0xDC
/-- Transposed FESC (`TFESC = 0xDD`). -/
def TFESC : Nat := 0xDD

/-- TXDelay in milliseconds (rf_simulator.py `TX_DELAY_MS = 100`). -/
def TX_DELAY_MS : ℚ := 100

/-- `RFChannel._kiss_escape` of rf_simulator.py (byte for byte the same code
as `kiss_escape` in interactive-test.py and visual-test.py): FEND becomes
FESC TFEND, FESC becomes FESC TFESC, every other byte is copied. -/
def kiss_escape : List Nat → List Nat
  | [] => []
  | b :: rest =>
      (if b = FEND then [FESC, TFEND]
       else if b = FESC then [FESC, TFESC]
       else [b]) ++ kiss_escape rest

/-- `kiss_unescape` of rf_simulator.py: an index-based scan; FESC followed by
a byte maps TFEND/TFESC back and passes any other byte through; a FESC with
no following byte is skipped (`i += 1` and the loop ends, appending
nothing). -/
def kiss_unescape : List Nat → List Nat
  | [] => []
  | a :: rest =>
      if a = FESC then
        match rest with
        | [] => []
        | b :: rest2 =>
            (if b = TFEND then FEND else if b = TFESC then FESC else b)
              :: kiss_unescape rest2
      else a :: kiss_unescape rest

/-- `kiss_unescape` of interactive-test.py (and visual-test.py): same scan,
but its guard is `data[i] == KISS_FESC and i + 1 < len(data)`, so a FESC in
final position falls into the `else` branch and is appended to the output. -/
def kiss_unescape_it : List Nat → List Nat
  | [] => []
  | [a] => [a]
  | a :: b :: rest =>
      if a = FESC then
        (if b = TFEND then FEND else if b = TFESC then FESC else b)
          :: kiss_unescape_it rest
      else a :: kiss_unescape_it (b :: rest)

/-- Helper loop of `kiss_unescape` in tnc4_config.py, which scans with an
explicit `esc` flag: in escape state the byte is mapped and the flag
cleared; otherwise FESC sets the flag and any other byte is copied. -/
def kiss_unescape_tnc4_aux : Bool → List Nat → List Nat
  | _, [] => []
  | true, b :: rest =>
      (if b = TFEND then FEND else if b = TFESC then FESC else b)
        :: kiss_unescape_tnc4_aux false rest
  | false, b :: rest =>
      if b = FESC then kiss_unescape_tnc4_aux true rest
      else b :: kiss_unescape_tnc4_aux false rest

/-- `kiss_unescape` of tnc4_config.py (starts with `esc = False`). -/
def kiss_unescape_tnc4 (data : List Nat) : List Nat :=
  kiss_unescape_tnc4_aux false data

/-- The escape-flag state of the tnc4-style scanner after consuming a byte
sequence; used to say precisely when a trailing FESC is in escape position
(i.e. is not itself the escaped character of a preceding FESC). -/
def escState : Bool → List Nat → Bool
  | e, [] => e
  | true, _ :: rest => escState false rest
  | false, b :: rest => escState (b = FESC) rest

/-- Characters removed by Python `str.strip()` with no argument
(ASCII whitespace: space, tab, LF, VT, FF, CR). -/
def pyWhitespace (c : Nat) : Bool :=
  c = 0x20 || c = 0x09 || c = 0x0A || c = 0x0B || c = 0x0C || c = 0x0D

/-- Python `str.strip()`: drop leading and trailing whitespace characters. -/
def pyStrip (s : List Nat) : List Nat :=
  ((s.dropWhile pyWhitespace).reverse.dropWhile pyWhitespace).reverse

/-- Python `str.upper()` restricted to ASCII (the only case exercised by the
callsign encoders, whose inputs are ASCII callsigns). -/
def pyUpperChar (c : Nat) : Nat := if 97 ≤ c ∧ c ≤ 122 then c - 32 else c

/-- `AX25Address` dataclass of rf_simulator.py; the callsign string is
modelled as its list of character codes. -/
structure AX25Address where
  callsign : List Nat
  ssid : Nat
deriving DecidableEq, Repr

/-- `decode_ax25_address` of rf_simulator.py: on fewer than `offset + 7`
bytes return the `"??????"` sentinel with `is_last = True`; otherwise take
each of the first six bytes shifted right once and masked to 7 bits,
dropping `0x20` characters, strip the result, and read the SSID byte. -/
def decode_ax25_address (data : List Nat) (offset : Nat) : AX25Address × Bool :=
  if data.length < offset + 7 then (⟨List.replicate 6 0x3F, 0⟩, true)
  else
    let chars := (List.range 6).map (fun i => (data.getD (offset + i) 0 >>> 1) &&& 0x7F)
    let callsign := chars.filter (fun c => c ≠ 0x20)
    let ssid_byte := data.getD (offset + 6) 0
    (⟨pyStrip callsign, (ssid_byte >>> 1) &&& 0x0F⟩, ssid_byte &&& 0x01 != 0)

/-- `encode_ax25_address` of visual-test.py (identical in
interactive-test.py): upper-case, pad the callsign with spaces to six
characters and truncate to six, shift each character left once, and append
`0x60 | ((ssid & 0x0F) << 1) | is_last`. -/
def encode_ax25_address (callsign : List Nat) (ssid : Nat) (is_last : Bool) : List Nat :=
  let call := ((callsign.map pyUpperChar) ++ List.replicate (6 - callsign.length) 0x20).take 6
  call.map (fun c => c <<< 1) ++
    [(0x60 ||| ((ssid &&& 0x0F) <<< 1)) ||| (if is_last then 0x01 else 0)]

/-- `FrameType` enum of rf_simulator.py. -/
inductive FrameType
  | I_FRAME | S_FRAME | U_FRAME | UNKNOWN
deriving DecidableEq, Repr

/-- `AX25Frame` dataclass of rf_simulator.py with its field defaults. -/
structure AX25Frame where
  raw : List Nat
  dest : Option AX25Address := none
  source : Option AX25Address := none
  via : List AX25Address := []
  control : Nat := 0
  frame_type : FrameType := .UNKNOWN
  ns : Nat := 0
  nr : Nat := 0
  pf : Bool := false
  pid : Nat := 0
  info : List Nat := []
deriving DecidableEq, Repr

/-- The `while not is_last and offset + 7 <= len(data)` repeater loop of
`decode_ax25_frame`: accumulate via addresses and return the final offset. -/
def decode_vias (data : List Nat) (offset : Nat) (is_last : Bool) :
    List AX25Address × Nat :=
  if h : ¬ is_last ∧ offset + 7 ≤ data.length then
    let da := decode_ax25_address data offset
    let rest := decode_vias data (offset + 7) da.2
    (da.1 :: rest.1, rest.2)
  else ([], offset)
termination_by data.length - offset
decreasing_by omega

/-- The control-byte classification block of `decode_ax25_frame`
(rf_simulator.py lines 160–174), returning
`(frame_type, ns, nr, pf)`: bit 0 clear → I-frame with `ns` in bits 1–3 and
`nr` in bits 5–7; bits 0–1 = `01` → S-frame with `nr` in bits 5–7;
otherwise U-frame.  `ns`/`nr` keep the dataclass default `0` when their
branch does not assign them. -/
def classify_control (control : Nat) : FrameType × Nat × Nat × Bool :=
  if control &&& 0x01 = 0 then
    (.I_FRAME, (control >>> 1) &&& 0x07, (control >>> 5) &&& 0x07,
     control &&& 0x10 != 0)
  else if control &&& 0x03 = 0x01 then
    (.S_FRAME, 0, (control >>> 5) &&& 0x07, control &&& 0x10 != 0)
  else
    (.U_FRAME, 0, 0, control &&& 0x10 != 0)

/-- `decode_ax25_frame` of rf_simulator.py: below 14 bytes only `raw` is
filled; otherwise destination, source, the repeater path, then (when bytes
remain) the control byte with I/S/U classification, the PID byte for I and
UI frames, and the info field. -/
def decode_ax25_frame (data : List Nat) : AX25Frame :=
  if data.length < 14 then { raw := data }
  else
    let dest := (decode_ax25_address data 0).1
    let sl := decode_ax25_address data 7
    let vo := decode_vias data 14 sl.2
    let offset := vo.2
    if offset < data.length then
      let control := data.getD offset 0
      let tnnp := classify_control control
      let offset := offset + 1
      let po : Nat × Nat :=
        if tnnp.1 = .I_FRAME ∨ (tnnp.1 = .U_FRAME ∧ control &&& 0xEF = 0x03) then
          if offset < data.length then (data.getD offset 0, offset + 1)
          else (0, offset)
        else (0, offset)
      let info := if po.2 < data.length then data.drop po.2 else []
      { raw := data, dest := some dest, source := some sl.1, via := vo.1,
        control := control, frame_type := tnnp.1, ns := tnnp.2.1,
        nr := tnnp.2.2.1, pf := tnnp.2.2.2, pid := po.1, info := info }
    else
      { raw := data, dest := some dest, source := some sl.1, via := vo.1 }

/-- The U-frame display classification in `AX25Frame.__str__` of
rf_simulator.py: its `u_types` dict has six entries keyed by
`control & 0xEF`; the fallback `f"U({control:02X})"` keeps the raw control
byte, modelled by the `UNK` constructor. -/
inductive UDisplay
  | SABM | DM | DISC | UA | UI | FRMR
  | UNK (raw : Nat)
deriving DecidableEq, Repr

/-- `u_types.get(self.control & 0xEF, f"U({self.control:02X})")` of
rf_simulator.py `AX25Frame.__str__`. -/
def u_type_display (control : Nat) : UDisplay :=
  let m := control &&& 0xEF
  if m = 0x2F then .SABM
  else if m = 0x0F then .DM
  else if m = 0x43 then .DISC
  else if m = 0x63 then .UA
  else if m = 0x03 then .UI
  else if m = 0x87 then .FRMR
  else .UNK control

/-- The `FrameType` enum of kiss-monitor.py (renamed to avoid clashing with
the rf_simulator enum of the same name). -/
inductive KMFrameType
  | I | RR | RNR | REJ | SABM | SABME | UA | DM | DISC | FRMR | XID | TEST | UI
  | UNKNOWN
deriving DecidableEq, Repr

/-- `AX25Decoder.decode_frame_type` of kiss-monitor.py: returns
`(type, ns, nr, pf)` where `ns`/`nr` are `None` unless the class provides
them. -/
def decode_frame_type (control : Nat) : KMFrameType × Option Nat × Option Nat × Bool :=
  if control &&& 0x01 = 0 then
    (.I, some ((control >>> 1) &&& 0x07), some ((control >>> 5) &&& 0x07),
     control &&& 0x10 != 0)
  else if control &&& 0x03 = 0x01 then
    let nr := (control >>> 5) &&& 0x07
    let pf := control &&& 0x10 != 0
    let s_type := (control >>> 2) &&& 0x03
    if s_type = 0 then (.RR, none, some nr, pf)
    else if s_type = 1 then (.RNR, none, some nr, pf)
    else if s_type = 2 then (.REJ, none, some nr, pf)
    else (.UNKNOWN, none, some nr, pf)
  else
    let pf := control &&& 0x10 != 0
    let u_type := control &&& 0xEF
    if u_type = 0x03 then (.UI, none, none, pf)
    else if u_type = 0x2F then (.SABM, none, none, pf)
    else if u_type = 0x6F then (.SABME, none, none, pf)
    else if u_type = 0x63 then (.UA, none, none, pf)
    else if u_type = 0x0F then (.DM, none, none, pf)
    else if u_type = 0x43 then (.DISC, none, none, pf)
    else if u_type = 0x87 then (.FRMR, none, none, pf)
    else if u_type = 0xAF then (.XID, none, none, pf)
    else if u_type = 0xE3 then (.TEST, none, none, pf)
    else (.UNKNOWN, none, none, pf)

/-- `Station` dataclass of rf_simulator.py.  The `writer` handle and the
remote-address string play no part in the channel logic and are omitted;
`__eq__`/`__hash__` compare stations by `id` alone, which the model mirrors
by comparing the `id` field wherever the source compares stations. -/
structure Station where
  port : Nat
  id : Nat
  tx_count : Nat := 0
  rx_count : Nat := 0
deriving DecidableEq, Repr

/-- The mutable fields of `RFChannel` in rf_simulator.py.  `stations` is the
`Dict[int, Set[Station]]` port registry as an association list,
`recent_frames` the digest-to-timestamp dict as an association list. -/
structure ChannelState where
  stations : List (Nat × List Station)
  station_counter : Nat := 0
  frame_counter : Nat := 0
  channel_busy : Bool := false
  channel_busy_until : ℚ := 0
  ber : ℚ := 0
  collision_count : Nat := 0
  recent_frames : List (List Nat × ℚ) := []
deriving DecidableEq, Repr

/-- Python dict read `d[k]` / `k in d` on the digest table. -/
def dictGet (k : List Nat) : List (List Nat × ℚ) → Option ℚ
  | [] => none
  | e :: rest => if e.1 = k then some e.2 else dictGet k rest

/-- Python dict write `d[k] = v` on the digest table (overwrite in place or
append). -/
def dictSet (k : List Nat) (v : ℚ) : List (List Nat × ℚ) → List (List Nat × ℚ)
  | [] => [(k, v)]
  | e :: rest => if e.1 = k then (e.1, v) :: rest else e :: dictSet k v rest

/-- `RFChannel._frame_hash` computes a truncated MD5 hex digest of the
unescaped frame bytes.  MD5 has no shallow embedding; the digest is
modelled as the bytes themselves (an injective digest).  The model and the
source agree that byte-identical frames get equal digests — the only
property the duplicate-detection claims rely on. -/
def frame_hash (ax25_data : List Nat) : List Nat := ax25_data

/-- `apply_bit_errors` of rf_simulator.py: with a non-positive bit error
rate the data is returned unchanged; the random per-bit corruption of the
positive-rate branch is modelled by an oracle `noise`. -/
def apply_bit_errors (data : List Nat) (ber : ℚ) (noise : List Nat → List Nat) : List Nat :=
  if ber ≤ 0 then data else noise data

/-- The observable events of one `RFChannel.transmit` call: whether the
frame was dropped by a length check, whether a collision and a duplicate
were logged, the frame id, the re-encoded KISS bytes, the recipient
snapshot, and the recipients whose writes succeeded. -/
structure TxLog where
  dropped : Bool
  collision : Bool := false
  is_dupe : Bool := false
  frame_id : Nat := 0
  kiss_out : List Nat := []
  recipients : List Station := []
  delivered : List Station := []
deriving DecidableEq, Repr

/-- `RFChannel.transmit` of rf_simulator.py as a state transformer.
`current_time` is the `time.time()` read at entry; `writeOk` says which
per-recipient `writer.write`/`drain` calls succeed (a failed one is caught,
logged and skipped); `noise` is the randomness oracle of
`apply_bit_errors`.  Steps in source order: the two length checks (early
`return` leaves the state untouched), collision check against the busy
window, unconditional busy-window update from the frame duration at
1200 baud plus TXDelay, duplicate lookup then digest overwrite and
5-second eviction, re-encoding, and fan-out to every registered station
other than the sender with `rx_count`/`tx_count` updates. -/
def transmit (st : ChannelState) (kiss_frame : List Nat) (from_station : Station)
    (current_time : ℚ) (writeOk : Station → Bool) (noise : List Nat → List Nat) :
    ChannelState × TxLog :=
  if kiss_frame.length < 3 then (st, { dropped := true })
  else
    let kiss_cmd := kiss_frame.getD 0 0
    let ax25_data := kiss_unescape (kiss_frame.drop 1)
    if ax25_data.length < 14 then (st, { dropped := true })
    else
      let collision := st.channel_busy && decide (current_time < st.channel_busy_until)
      let collision_count := if collision then st.collision_count + 1 else st.collision_count
      let frame_duration_ms : ℚ := (ax25_data.length * 8 : ℚ) / 1200 * 1000 + TX_DELAY_MS
      let channel_busy_until := current_time + frame_duration_ms / 1000
      let frame_counter := st.frame_counter + 1
      let fh := frame_hash ax25_data
      let is_dupe :=
        match dictGet fh st.recent_frames with
        | some t => decide (current_time - t < 1)
        | none => false
      let rf := (dictSet fh current_time st.recent_frames).filter
                  (fun e => ! decide (current_time - e.2 > 5))
      let ax25_out := if st.ber > 0 then apply_bit_errors ax25_data st.ber noise
                      else ax25_data
      let kiss_out := [FEND, kiss_cmd] ++ kiss_escape ax25_out ++ [FEND]
      let recipients := ((st.stations.map Prod.snd).flatten).filter
                          (fun s => s.id != from_station.id)
      let delivered := recipients.filter writeOk
      let stations := st.stations.map (fun ps => (ps.1, ps.2.map (fun s =>
        let s1 := if s.id = from_station.id then { s with tx_count := s.tx_count + 1 }
                  else s
        if delivered.any (fun d => d.id = s1.id) then
          { s1 with rx_count := s1.rx_count + 1 }
        else s1)))
      ({ st with stations := stations, frame_counter := frame_counter,
                 channel_busy := true, channel_busy_until := channel_busy_until,
                 collision_count := collision_count, recent_frames := rf },
       { dropped := false, collision := collision, is_dupe := is_dupe,
         frame_id := frame_counter, kiss_out := kiss_out,
         recipients := recipients, delivered := delivered })

/-- The re-encoded KISS frame built at rf_simulator.py line 365:
`bytes([FEND, kiss_cmd]) + self._kiss_escape(ax25_data) + bytes([FEND])`. -/
def reencoded_frame (kiss_cmd : Nat) (ax25_data : List Nat) : List Nat :=
  [FEND, kiss_cmd] ++ kiss_escape ax25_data ++ [FEND]

/-! ## Theorems -/

/-- Unfolding of the rf_simulator scanner on a non-escape head byte, for an
arbitrary (not yet constructor-shaped) tail. -/
theorem kiss_unescape_cons_ne (b : Nat) (l : List Nat) (hb : b ≠ FESC) :
    kiss_unescape (b :: l) = b :: kiss_unescape l := by
  cases l <;> simp [kiss_unescape, hb]

/-- C5: unescaping the escaped form of any byte sequence returns it
exactly: the delimiter becomes FESC TFEND, the escape byte FESC TFESC, and
every other byte passes through both transforms unchanged. -/
theorem C5_framer_roundtrip : ∀ p : List Nat, kiss_unescape (kiss_escape p) = p := by
  intro p
  induction p with
  | nil => rfl
  | cons b rest ih =>
      by_cases hb : b = FEND
      · subst hb
        simp [kiss_escape, kiss_unescape, FEND, FESC, TFEND, TFESC, ih]
      · by_cases hb2 : b = FESC
        · subst hb2
          simp [kiss_escape, kiss_unescape, FESC, TFEND, TFESC, ih]
        · simp [kiss_escape, hb, hb2, kiss_unescape_cons_ne b _ hb2, ih]

/-- C7: for each of the 256 control-byte values, the rf_simulator
classification yields exactly one of I/S/U according to the low bits (never
UNKNOWN), its send sequence number is extracted only in the I branch and
its receive sequence number only in the I and S branches; likewise the
kiss-monitor decoder returns `ns = None` outside the I branch and
`nr = None` outside the I and S branches. -/
theorem C7_classification_totality :
    ∀ c : Fin 256,
      ((classify_control c.val).1 = FrameType.I_FRAME ∨
       (classify_control c.val).1 = FrameType.S_FRAME ∨
       (classify_control c.val).1 = FrameType.U_FRAME) ∧
      ((classify_control c.val).1 = FrameType.I_FRAME ↔ c.val &&& 0x01 = 0) ∧
      ((classify_control c.val).1 = FrameType.S_FRAME ↔ c.val &&& 0x03 = 0x01) ∧
      ((classify_control c.val).1 = FrameType.U_FRAME ↔ c.val &&& 0x03 = 0x03) ∧
      ((classify_control c.val).1 ≠ FrameType.I_FRAME →
        (classify_control c.val).2.1 = 0) ∧
      ((classify_control c.val).1 = FrameType.U_FRAME →
        (classify_control c.val).2.2.1 = 0) ∧
      ((decode_frame_type c.val).2.1.isSome ↔ c.val &&& 0x01 = 0) ∧
      ((decode_frame_type c.val).2.2.1.isSome ↔
        (c.val &&& 0x01 = 0 ∨ c.val &&& 0x03 = 0x01)) := by
  decide

/-- Witness for C7 at the concrete control bytes 0x00 (an I-frame) and
0x03 (a U-frame, whose ns field keeps its default 0). -/
theorem C7_classification_totality_witness :
    (classify_control 0x00).1 = FrameType.I_FRAME ∧
    (classify_control 0x03).2.1 = 0 :=
  ⟨(C7_classification_totality ⟨0x00, by norm_num⟩).2.1.mpr (by decide),
   (C7_classification_totality ⟨0x03, by norm_num⟩).2.2.2.2.1 (by decide)⟩

/-- C9 counterexample: the claim's subtype table does not match the code.
In kiss-monitor, masked value `0x6F` — not among the claim's eight entries,
so the claim maps it to "unknown" — decodes to the distinct subtype SABME;
and in rf_simulator the control byte `0xAF`, which the claim maps to
Exchange-ID, falls through to the unknown display `U(AF)` because the
`u_types` dict has no `0xAF` (nor `0xE3`) entry. -/
theorem C9_counterexample :
    (decode_frame_type 0x6F).1 = KMFrameType.SABME ∧
    KMFrameType.SABME ≠ KMFrameType.UNKNOWN ∧
    u_type_display 0xAF = UDisplay.UNK 0xAF := by
  decide

/-- C9 amended: both lookups key on the control byte masked with `0xEF`.
The kiss-monitor table maps 0x2F→SABM, 0x0F→DM, 0x43→DISC, 0x63→UA,
0x03→UI, 0x87→FRMR, 0xAF→XID, 0xE3→TEST and additionally 0x6F→SABME, with
every other masked value giving a generic UNKNOWN (which does not retain
the raw value); the rf_simulator display table has only the six entries
SABM, DM, DISC, UA, UI, FRMR, and every other masked value — including
0xAF and 0xE3 — yields an unknown display retaining the raw control
byte. -/
theorem C9_subtype_tables :
    ∀ c : Fin 256, c.val &&& 0x03 = 0x03 →
      (u_type_display c.val = UDisplay.SABM ↔ c.val &&& 0xEF = 0x2F) ∧
      (u_type_display c.val = UDisplay.DM ↔ c.val &&& 0xEF = 0x0F) ∧
      (u_type_display c.val = UDisplay.DISC ↔ c.val &&& 0xEF = 0x43) ∧
      (u_type_display c.val = UDisplay.UA ↔ c.val &&& 0xEF = 0x63) ∧
      (u_type_display c.val = UDisplay.UI ↔ c.val &&& 0xEF = 0x03) ∧
      (u_type_display c.val = UDisplay.FRMR ↔ c.val &&& 0xEF = 0x87) ∧
      (u_type_display c.val = UDisplay.UNK c.val ↔
        ¬(c.val &&& 0xEF = 0x2F ∨ c.val &&& 0xEF = 0x0F ∨ c.val &&& 0xEF = 0x43 ∨
          c.val &&& 0xEF = 0x63 ∨ c.val &&& 0xEF = 0x03 ∨ c.val &&& 0xEF = 0x87)) ∧
      ((decode_frame_type c.val).1 = (decode_frame_type (c.val &&& 0xEF)).1) ∧
      ((decode_frame_type c.val).1 = KMFrameType.SABM ↔ c.val &&& 0xEF = 0x2F) ∧
      ((decode_frame_type c.val).1 = KMFrameType.DM ↔ c.val &&& 0xEF = 0x0F) ∧
      ((decode_frame_type c.val).1 = KMFrameType.DISC ↔ c.val &&& 0xEF = 0x43) ∧
      ((decode_frame_type c.val).1 = KMFrameType.UA ↔ c.val &&& 0xEF = 0x63) ∧
      ((decode_frame_type c.val).1 = KMFrameType.UI ↔ c.val &&& 0xEF = 0x03) ∧
      ((decode_frame_type c.val).1 = KMFrameType.FRMR ↔ c.val &&& 0xEF = 0x87) ∧
      ((decode_frame_type c.val).1 = KMFrameType.XID ↔ c.val &&& 0xEF = 0xAF) ∧
      ((decode_frame_type c.val).1 = KMFrameType.TEST ↔ c.val &&& 0xEF = 0xE3) ∧
      ((decode_frame_type c.val).1 = KMFrameType.SABME ↔ c.val &&& 0xEF = 0x6F) ∧
      ((decode_frame_type c.val).1 = KMFrameType.UNKNOWN ↔
        ¬(c.val &&& 0xEF = 0x2F ∨ c.val &&& 0xEF = 0x0F ∨ c.val &&& 0xEF = 0x43 ∨
          c.val &&& 0xEF = 0x63 ∨ c.val &&& 0xEF = 0x03 ∨ c.val &&& 0xEF = 0x87 ∨
          c.val &&& 0xEF = 0xAF ∨ c.val &&& 0xEF = 0xE3 ∨ c.val &&& 0xEF = 0x6F)) := by
  decide

/-- Witness for the amended C9 theorem at the concrete control byte 0xAF:
it is U-class, and the kiss-monitor decoder classifies it as XID. -/
theorem C9_subtype_tables_witness :
    ((0xAF : Nat) &&& 0x03 = 0x03) ∧ (decode_frame_type 0xAF).1 = KMFrameType.XID := by
  refine ⟨by decide, ?_⟩
  obtain ⟨-, -, -, -, -, -, -, -, -, -, -, -, -, -, hxid, -, -, -⟩ :=
    C9_subtype_tables ⟨0xAF, by norm_num⟩ (by decide)
  exact hxid.mpr (by decide)

/-- The rf_simulator scanner emits nothing for a trailing FESC it reaches
in non-escape position (`escState` tracks whether the scan of the prefix
ends inside an escape sequence). -/
theorem kiss_unescape_append_fesc :
    ∀ p : List Nat, escState false p = false →
      kiss_unescape (p ++ [FESC]) = kiss_unescape p := by
  intro p
  induction p using kiss_unescape.induct with
  | case1 => intro _; simp [kiss_unescape]
  | case2 => intro h; simp [escState] at h
  | case3 b rest2 ih =>
      intro h
      simp only [escState, decide_True] at h
      simp [kiss_unescape, ih h]
  | case4 a rest ha ih =>
      intro h
      simp only [escState, ha, decide_eq_true_eq] at h
      rw [List.cons_append, kiss_unescape_cons_ne a _ ha,
        kiss_unescape_cons_ne a _ ha, ih h]

/-- The tnc4_config scanner loop (explicit escape flag) emits nothing for a
trailing FESC reached with the flag clear. -/
theorem kiss_unescape_tnc4_aux_append_fesc :
    ∀ (e : Bool) (p : List Nat), escState e p = false →
      kiss_unescape_tnc4_aux e (p ++ [FESC]) = kiss_unescape_tnc4_aux e p := by
  intro e p
  induction p generalizing e with
  | nil =>
      intro h
      cases e with
      | true => simp [escState] at h
      | false => simp [kiss_unescape_tnc4_aux]
  | cons b rest ih =>
      intro h
      cases e with
      | true =>
          simp only [escState] at h
          simp [kiss_unescape_tnc4_aux, ih false h]
      | false =>
          by_cases hb : b = FESC
          · subst hb
            simp only [escState, decide_True] at h
            simp [kiss_unescape_tnc4_aux, ih true h]
          · simp only [escState, hb, decide_eq_true_eq] at h
            simp [kiss_unescape_tnc4_aux, hb, ih false h]

/-- The interactive-test (and visual-test) scanner instead appends the
trailing FESC to its output when it reaches it in non-escape position. -/
theorem kiss_unescape_it_append_fesc :
    ∀ p : List Nat, escState false p = false →
      kiss_unescape_it (p ++ [FESC]) = kiss_unescape_it p ++ [FESC] := by
  intro p
  induction p using kiss_unescape_it.induct with
  | case1 => intro _; simp [kiss_unescape_it]
  | case2 a =>
      intro h
      simp only [escState] at h
      rw [decide_eq_false_iff_not] at h
      simp [kiss_unescape_it, h]
  | case3 b rest ih =>
      intro h
      simp only [escState, decide_True] at h
      simp [kiss_unescape_it, ih h]
  | case4 a b rest ha ih =>
      intro h
      have h' : escState false (b :: rest) = false := by
        simpa [escState, ha] using h
      simp only [List.cons_append, kiss_unescape_it, if_neg ha, List.append_eq]
      have h2 := ih h'
      rw [List.cons_append] at h2
      rw [h2]

/-- C6 counterexample.  The claim fails twice on concrete inputs: the
interactive-test.py implementation emits a byte for the lone trailing
escape (on `[0xDB]` it returns `[0xDB]`, not the `[]` of unescaping the
empty remainder); and even the rf_simulator implementation emits a byte
for the final `0xDB` of `[0xDB, 0xDB]` — there the last byte is the
escaped character of the preceding escape, not a trailing escape — so the
claim's unqualified "every byte sequence ending in 0xDB" is also wrong. -/
theorem C6_counterexample :
    (kiss_unescape_it [FESC] = [FESC] ∧ kiss_unescape_it ([] : List Nat) = [] ∧
      kiss_unescape_it [FESC] ≠ kiss_unescape_it ([] : List Nat)) ∧
    (kiss_unescape [FESC, FESC] = [FESC] ∧ kiss_unescape [FESC] = [] ∧
      kiss_unescape [FESC, FESC] ≠ kiss_unescape [FESC]) := by
  decide

/-- C6 amended: a byte sequence ending in an escape byte that the scanner
reaches in non-escape position is absorbed silently by the rf_simulator and
tnc4_config implementations (the result equals unescaping the sequence
without that byte), but the interactive-test/visual-test implementation
appends the trailing escape byte to its output. -/
theorem C6_trailing_escape :
    (∀ p : List Nat, escState false p = false →
        kiss_unescape (p ++ [FESC]) = kiss_unescape p) ∧
    (∀ p : List Nat, escState false p = false →
        kiss_unescape_tnc4 (p ++ [FESC]) = kiss_unescape_tnc4 p) ∧
    (∀ p : List Nat, escState false p = false →
        kiss_unescape_it (p ++ [FESC]) = kiss_unescape_it p ++ [FESC]) :=
  ⟨kiss_unescape_append_fesc,
   fun p h => kiss_unescape_tnc4_aux_append_fesc false p h,
   kiss_unescape_it_append_fesc⟩

/-- Witness for the amended C6 theorem at the concrete prefix `[0x01]`. -/
theorem C6_trailing_escape_witness :
    escState false [0x01] = false ∧
    kiss_unescape ([0x01] ++ [FESC]) = kiss_unescape [0x01] ∧
    kiss_unescape_tnc4 ([0x01] ++ [FESC]) = kiss_unescape_tnc4 [0x01] ∧
    kiss_unescape_it ([0x01] ++ [FESC]) = kiss_unescape_it [0x01] ++ [FESC] :=
  ⟨by decide, C6_trailing_escape.1 [0x01] (by decide),
   C6_trailing_escape.2.1 [0x01] (by decide),
   C6_trailing_escape.2.2 [0x01] (by decide)⟩

/-- The KISS escaper never emits the delimiter byte: every output chunk is
`[FESC, TFEND]`, `[FESC, TFESC]`, or a byte that is neither FEND nor
FESC. -/
theorem kiss_escape_no_fend : ∀ p : List Nat, ∀ b ∈ kiss_escape p, b ≠ FEND := by
  intro p
  induction p with
  | nil => simp [kiss_escape]
  | cons a rest ih =>
      simp only [kiss_escape, List.mem_append]
      intro b hb
      rcases hb with hb | hb
      · by_cases h1 : a = FEND
        · simp only [if_pos h1, List.mem_cons, List.not_mem_nil, or_false] at hb
          rcases hb with rfl | rfl <;> decide
        · by_cases h2 : a = FESC
          · simp only [if_neg h1, if_pos h2, List.mem_cons, List.not_mem_nil,
              or_false] at hb
            rcases hb with rfl | rfl <;> decide
          · simp only [if_neg h1, if_neg h2, List.mem_singleton] at hb
            subst hb; exact h1
      · exact ih b hb

/-- C10: for a non-delimiter command byte, the re-encoded frame
`FEND · cmd · escape(p) · FEND` of rf_simulator.py line 365 carries the
delimiter exactly at its first and last positions: the escaped body
contains no FEND, so frame boundaries in the output stream are
unambiguous. -/
theorem C10_unambiguous_framing (p : List Nat) (kiss_cmd : Nat)
    (hcmd : kiss_cmd ≠ FEND) :
    (reencoded_frame kiss_cmd p).head? = some FEND ∧
    (reencoded_frame kiss_cmd p).getLast? = some FEND ∧
    (∀ b ∈ kiss_escape p, b ≠ FEND) ∧
    ∀ b ∈ ((reencoded_frame kiss_cmd p).drop 1).dropLast, b ≠ FEND := by
  refine ⟨rfl, ?_, kiss_escape_no_fend p, ?_⟩
  · rw [reencoded_frame]
    exact List.getLast?_concat _
  · have he : ((reencoded_frame kiss_cmd p).drop 1).dropLast =
        kiss_cmd :: kiss_escape p := by
      have h1 : reencoded_frame kiss_cmd p =
          FEND :: ((kiss_cmd :: kiss_escape p) ++ [FEND]) := by
        simp [reencoded_frame]
      rw [h1, List.drop_one, List.tail_cons, List.dropLast_concat]
    rw [he]
    intro b hb
    rcases List.mem_cons.mp hb with h | h
    · subst h; exact hcmd
    · exact kiss_escape_no_fend p b h

/-- Witness for C10 at the concrete payload `[0xC0, 0xDB]` and command
byte 0. -/
theorem C10_unambiguous_framing_witness :
    (0 : Nat) ≠ FEND ∧ (reencoded_frame 0 [0xC0, 0xDB]).getLast? = some FEND :=
  ⟨by decide, (C10_unambiguous_framing [0xC0, 0xDB] 0 (by decide)).2.1⟩

/-- `str.upper()` does not change characters outside the lower-case
range. -/
theorem pyUpperChar_eq_self (c : Nat) (h : c ≤ 90) : pyUpperChar c = c := by
  unfold pyUpperChar
  rw [if_neg]
  omega

/-- The per-character address transform round-trips on 7-bit characters:
shift left once at encode, shift right once and mask to 7 bits at
decode. -/
theorem decode_char_shift (c : Nat) (h : c ≤ 127) :
    ((c <<< 1) >>> 1) &&& 0x7F = c := by
  interval_cases c <;> decide

/-- `dropWhile` keeps a list whose head (indeed, all elements) fails the
predicate. -/
theorem dropWhile_eq_self_of_all (p : Nat → Bool) (l : List Nat)
    (h : ∀ c ∈ l, p c = false) : l.dropWhile p = l := by
  cases l with
  | nil => rfl
  | cons a t =>
      have ha := h a (List.mem_cons_self a t)
      rw [List.dropWhile_cons, if_neg (by simp [ha])]

/-- `str.strip()` is the identity on strings with no whitespace. -/
theorem pyStrip_eq_self (l : List Nat) (h : ∀ c ∈ l, pyWhitespace c = false) :
    pyStrip l = l := by
  unfold pyStrip
  rw [dropWhile_eq_self_of_all _ _ h,
      dropWhile_eq_self_of_all _ _ (fun c hc => h c (List.mem_reverse.mp hc)),
      List.reverse_reverse]

/-- Characters at or above `A` are not Python whitespace. -/
theorem pyWhitespace_false (c : Nat) (h : 65 ≤ c) : pyWhitespace c = false := by
  simp only [pyWhitespace, Bool.or_eq_false_iff, decide_eq_false_iff_not]
  omega

/-- The SSID byte `0x60 | ((ssid & 0x0F) << 1) | is_last` decodes back to
the same secondary id (bits 1–4) and is-last flag (bit 0). -/
theorem ssid_byte_roundtrip (s : Nat) (hs : s ≤ 15) (b : Bool) :
    ((((0x60 ||| ((s &&& 0x0F) <<< 1)) ||| (if b then 0x01 else 0)) >>> 1) &&& 0x0F
       = s) ∧
    ((((0x60 ||| ((s &&& 0x0F) <<< 1)) ||| (if b then 0x01 else 0)) &&& 0x01 != 0)
       = b) := by
  interval_cases s <;> cases b <;> decide

/-- C8: decoding the 7-byte encoded address field recovers the callsign (at
most six upper-case letters), the secondary id (0–15) and the is-last flag
exactly. -/
theorem C8_address_roundtrip (callsign : List Nat) (ssid : Nat) (is_last : Bool)
    (hlen : callsign.length ≤ 6) (hchars : ∀ c ∈ callsign, 65 ≤ c ∧ c ≤ 90)
    (hssid : ssid ≤ 15) :
    decode_ax25_address (encode_ax25_address callsign ssid is_last) 0 =
      (⟨callsign, ssid⟩, is_last) := by
  have hupper : callsign.map pyUpperChar = callsign := by
    have h1 : callsign.map pyUpperChar = callsign.map id :=
      List.map_congr_left (fun a ha => pyUpperChar_eq_self a (hchars a ha).2)
    simpa using h1
  set sb := (0x60 ||| ((ssid &&& 0x0F) <<< 1)) ||| (if is_last then 0x01 else 0)
    with hsb
  set call := callsign ++ List.replicate (6 - callsign.length) 0x20 with hcall
  have hcalllen : call.length = 6 := by
    rw [hcall]; simp; omega
  have hcallmem : ∀ c ∈ call, c ≤ 127 := by
    intro c hc
    rcases List.mem_append.mp hc with h | h
    · exact le_trans (hchars c h).2 (by norm_num)
    · rw [List.eq_of_mem_replicate h]; norm_num
  have henc : encode_ax25_address callsign ssid is_last =
      call.map (fun c => c <<< 1) ++ [sb] := by
    unfold encode_ax25_address
    rw [hupper, ← hcall, List.take_of_length_le (le_of_eq hcalllen)]
  have hElen : (encode_ax25_address callsign ssid is_last).length = 7 := by
    rw [henc]; simp [hcalllen]
  have hmaplen : (call.map fun c => c <<< 1).length = 6 := by simp [hcalllen]
  have hchars_eq : (List.range 6).map
      (fun i => ((encode_ax25_address callsign ssid is_last).getD (0 + i) 0 >>> 1)
        &&& 0x7F) = call := by
    apply List.ext_getElem
    · simp [hcalllen]
    · intro i h1 h2
      simp only [List.getElem_map, List.getElem_range]
      have hi : i < 6 := by simpa using h1
      have hgd : (encode_ax25_address callsign ssid is_last).getD (0 + i) 0
          = call[i] <<< 1 := by
        rw [zero_add, henc, List.getD_append _ _ _ _ (by rw [hmaplen]; omega),
          List.getD_eq_getElem _ _ (by rw [hmaplen]; omega)]
        simp
      rw [hgd]
      exact decode_char_shift _ (hcallmem _ (List.getElem_mem _))
  have hfilter : call.filter (fun c => c ≠ 0x20) = callsign := by
    rw [hcall, List.filter_append]
    have h1 : callsign.filter (fun c => c ≠ 0x20) = callsign :=
      List.filter_eq_self.mpr (fun a ha => by
        have := (hchars a ha).1
        simp only [ne_eq, decide_not, Bool.not_eq_eq_eq_not, Bool.not_true,
          decide_eq_false_iff_not]
        omega)
    have h2 : (List.replicate (6 - callsign.length) 0x20).filter
        (fun c => c ≠ 0x20) = [] :=
      List.filter_eq_nil_iff.mpr (fun a ha => by
        rw [List.eq_of_mem_replicate ha]
        simp)
    rw [h1, h2, List.append_nil]
  have hstrip : pyStrip callsign = callsign :=
    pyStrip_eq_self callsign (fun c hc => pyWhitespace_false c (hchars c hc).1)
  have h6 : (encode_ax25_address callsign ssid is_last).getD (0 + 6) 0 = sb := by
    rw [henc, List.getD_append_right _ _ _ _ (by simp [hmaplen])]
    simp [hmaplen]
  have hrt := ssid_byte_roundtrip ssid hssid is_last
  rw [← hsb] at hrt
  unfold decode_ax25_address
  rw [if_neg (by rw [hElen]; omega)]
  simp only [hchars_eq, hfilter, hstrip, h6, Prod.mk.injEq]
  exact ⟨by rw [hrt.1], hrt.2⟩

/-- Witness for C8 at callsign "ABCDE", secondary id 7, is-last true. -/
theorem C8_address_roundtrip_witness :
    decode_ax25_address (encode_ax25_address [65, 66, 67, 68, 69] 7 true) 0 =
      (⟨[65, 66, 67, 68, 69], 7⟩, true) :=
  C8_address_roundtrip [65, 66, 67, 68, 69] 7 true (by decide)
    (by intro c hc; fin_cases hc <;> constructor <;> decide) (by decide)

/-- Both early returns of `transmit` (KISS frame shorter than 3 bytes, or
unescaped AX.25 data shorter than 14 bytes) leave the channel state
untouched and produce no delivery. -/
theorem transmit_dropped_eq (st : ChannelState) (kf : List Nat) (s : Station)
    (t : ℚ) (ok : Station → Bool) (noise : List Nat → List Nat)
    (h : kf.length < 3 ∨ (kiss_unescape (kf.drop 1)).length < 14) :
    transmit st kf s t ok noise = (st, { dropped := true }) := by
  rcases h with h | h
  · simp only [transmit, if_pos h]
  · by_cases h3 : kf.length < 3
    · simp only [transmit, if_pos h3]
    · simp only [transmit, if_neg h3, if_pos h]

/-- Collision accounting of `transmit`: the counter increments exactly when
the channel is busy and the call time is before the busy window's end. -/
theorem transmit_collision_count_eq (st : ChannelState) (kf : List Nat)
    (s : Station) (t : ℚ) (ok : Station → Bool) (noise : List Nat → List Nat)
    (h3 : ¬ kf.length < 3) (h14 : ¬ (kiss_unescape (kf.drop 1)).length < 14) :
    (transmit st kf s t ok noise).1.collision_count =
      if st.channel_busy && decide (t < st.channel_busy_until)
      then st.collision_count + 1 else st.collision_count := by
  simp only [transmit, if_neg h3, if_neg h14]

/-- Busy-window update of `transmit`: `busy_until` is set from the frame
duration at 1200 baud plus TXDelay, unconditionally. -/
theorem transmit_busy_until_eq (st : ChannelState) (kf : List Nat)
    (s : Station) (t : ℚ) (ok : Station → Bool) (noise : List Nat → List Nat)
    (h3 : ¬ kf.length < 3) (h14 : ¬ (kiss_unescape (kf.drop 1)).length < 14) :
    (transmit st kf s t ok noise).1.channel_busy_until =
      t + (((kiss_unescape (kf.drop 1)).length * 8 : ℚ) / 1200 * 1000
            + TX_DELAY_MS) / 1000 := by
  simp only [transmit, if_neg h3, if_neg h14]

/-- Digest-table update of `transmit`: overwrite the frame's digest with
the current time, then evict entries older than 5 seconds. -/
theorem transmit_recent_frames_eq (st : ChannelState) (kf : List Nat)
    (s : Station) (t : ℚ) (ok : Station → Bool) (noise : List Nat → List Nat)
    (h3 : ¬ kf.length < 3) (h14 : ¬ (kiss_unescape (kf.drop 1)).length < 14) :
    (transmit st kf s t ok noise).1.recent_frames =
      (dictSet (frame_hash (kiss_unescape (kf.drop 1))) t st.recent_frames).filter
        (fun e => ! decide (t - e.2 > 5)) := by
  simp only [transmit, if_neg h3, if_neg h14]

/-- Duplicate flag of `transmit`: set exactly when the digest was last seen
less than one second ago (looked up before the overwrite). -/
theorem transmit_is_dupe_eq (st : ChannelState) (kf : List Nat)
    (s : Station) (t : ℚ) (ok : Station → Bool) (noise : List Nat → List Nat)
    (h3 : ¬ kf.length < 3) (h14 : ¬ (kiss_unescape (kf.drop 1)).length < 14) :
    (transmit st kf s t ok noise).2.is_dupe =
      (match dictGet (frame_hash (kiss_unescape (kf.drop 1))) st.recent_frames with
       | some t0 => decide (t - t0 < 1)
       | none => false) := by
  simp only [transmit, if_neg h3, if_neg h14]

/-- A frame passing both length checks is not dropped. -/
theorem transmit_dropped_false (st : ChannelState) (kf : List Nat)
    (s : Station) (t : ℚ) (ok : Station → Bool) (noise : List Nat → List Nat)
    (h3 : ¬ kf.length < 3) (h14 : ¬ (kiss_unescape (kf.drop 1)).length < 14) :
    (transmit st kf s t ok noise).2.dropped = false := by
  simp only [transmit, if_neg h3, if_neg h14]

/-- Recipient snapshot of `transmit`: every station registered on any port,
except those comparing equal (by id) to the sender. -/
theorem transmit_recipients_eq (st : ChannelState) (kf : List Nat)
    (s : Station) (t : ℚ) (ok : Station → Bool) (noise : List Nat → List Nat)
    (h3 : ¬ kf.length < 3) (h14 : ¬ (kiss_unescape (kf.drop 1)).length < 14) :
    (transmit st kf s t ok noise).2.recipients =
      ((st.stations.map Prod.snd).flatten).filter (fun x => x.id != s.id) := by
  simp only [transmit, if_neg h3, if_neg h14]

/-- Deliveries of `transmit`: the recipients whose writes succeed. -/
theorem transmit_delivered_eq (st : ChannelState) (kf : List Nat)
    (s : Station) (t : ℚ) (ok : Station → Bool) (noise : List Nat → List Nat)
    (h3 : ¬ kf.length < 3) (h14 : ¬ (kiss_unescape (kf.drop 1)).length < 14) :
    (transmit st kf s t ok noise).2.delivered =
      (((st.stations.map Prod.snd).flatten).filter (fun x => x.id != s.id)).filter
        ok := by
  simp only [transmit, if_neg h3, if_neg h14]

/-- Output bytes of `transmit`: delimiter, command byte, escaped
(possibly noise-corrupted) AX.25 data, delimiter. -/
theorem transmit_kiss_out_eq (st : ChannelState) (kf : List Nat)
    (s : Station) (t : ℚ) (ok : Station → Bool) (noise : List Nat → List Nat)
    (h3 : ¬ kf.length < 3) (h14 : ¬ (kiss_unescape (kf.drop 1)).length < 14) :
    (transmit st kf s t ok noise).2.kiss_out =
      [FEND, kf.getD 0 0] ++
        kiss_escape (if st.ber > 0
          then apply_bit_errors (kiss_unescape (kf.drop 1)) st.ber noise
          else kiss_unescape (kf.drop 1)) ++ [FEND] := by
  simp only [transmit, if_neg h3, if_neg h14]

/-- C1: a `transmit` at a time `t` strictly before the busy window left by
a prior transmission increments `collision_count` by exactly one; the frame
is still delivered to every other registered station (all writes
succeeding); and afterwards `busy_until` equals `t` plus the frame
duration — payload bit length over the assumed 1200-baud bitrate plus the
100 ms keyup delay — whether or not a collision was detected. -/
theorem C1_collision_still_delivers (st : ChannelState) (kf : List Nat)
    (from_station : Station) (t : ℚ) (noise : List Nat → List Nat)
    (h3 : 3 ≤ kf.length) (h14 : 14 ≤ (kiss_unescape (kf.drop 1)).length) :
    (st.channel_busy = true → t < st.channel_busy_until →
      (transmit st kf from_station t (fun _ => true) noise).1.collision_count
        = st.collision_count + 1) ∧
    (transmit st kf from_station t (fun _ => true) noise).2.delivered
      = ((st.stations.map Prod.snd).flatten).filter
          (fun x => x.id != from_station.id) ∧
    (transmit st kf from_station t (fun _ => true) noise).1.channel_busy_until
      = t + ((kiss_unescape (kf.drop 1)).length * 8 : ℚ) / 1200 + 1 / 10 := by
  have h3' : ¬ kf.length < 3 := not_lt.mpr h3
  have h14' : ¬ (kiss_unescape (kf.drop 1)).length < 14 := not_lt.mpr h14
  refine ⟨?_, ?_, ?_⟩
  · intro hb ht
    rw [transmit_collision_count_eq st kf from_station t _ noise h3' h14', hb]
    simp [ht]
  · rw [transmit_delivered_eq st kf from_station t _ noise h3' h14']
    exact List.filter_true _
  · rw [transmit_busy_until_eq st kf from_station t _ noise h3' h14', TX_DELAY_MS]
    ring

/-- Witness for C1: two stations on different ports, the channel busy until
time 10, a 15-byte KISS frame transmitted at time 5. -/
theorem C1_collision_still_delivers_witness :
    ((⟨[(8001, [⟨8001, 1, 0, 0⟩]), (8002, [⟨8002, 2, 0, 0⟩])], 2, 0, true, 10,
        0, 0, []⟩ : ChannelState).channel_busy = true →
      (5 : ℚ) < (⟨[(8001, [⟨8001, 1, 0, 0⟩]), (8002, [⟨8002, 2, 0, 0⟩])], 2, 0,
        true, 10, 0, 0, []⟩ : ChannelState).channel_busy_until →
      (transmit ⟨[(8001, [⟨8001, 1, 0, 0⟩]), (8002, [⟨8002, 2, 0, 0⟩])], 2, 0,
          true, 10, 0, 0, []⟩ (0 :: List.replicate 14 0x40) ⟨8001, 1, 0, 0⟩ 5
          (fun _ => true) id).1.collision_count
        = (⟨[(8001, [⟨8001, 1, 0, 0⟩]), (8002, [⟨8002, 2, 0, 0⟩])], 2, 0, true,
            10, 0, 0, []⟩ : ChannelState).collision_count + 1) ∧
    (transmit ⟨[(8001, [⟨8001, 1, 0, 0⟩]), (8002, [⟨8002, 2, 0, 0⟩])], 2, 0,
        true, 10, 0, 0, []⟩ (0 :: List.replicate 14 0x40) ⟨8001, 1, 0, 0⟩ 5
        (fun _ => true) id).2.delivered
      = (((⟨[(8001, [⟨8001, 1, 0, 0⟩]), (8002, [⟨8002, 2, 0, 0⟩])], 2, 0, true,
            10, 0, 0, []⟩ : ChannelState).stations.map Prod.snd).flatten).filter
          (fun x => x.id != (⟨8001, 1, 0, 0⟩ : Station).id) ∧
    (transmit ⟨[(8001, [⟨8001, 1, 0, 0⟩]), (8002, [⟨8002, 2, 0, 0⟩])], 2, 0,
        true, 10, 0, 0, []⟩ (0 :: List.replicate 14 0x40) ⟨8001, 1, 0, 0⟩ 5
        (fun _ => true) id).1.channel_busy_until
      = 5 + ((kiss_unescape ((0 :: List.replicate 14 0x40).drop 1)).length * 8 : ℚ)
            / 1200 + 1 / 10 :=
  C1_collision_still_delivers _ _ _ _ _ (by decide) (by decide)

/-- C2: the recipient set of an accepted `transmit` is exactly the stations
registered on any port minus the sender (compared by station id), and a
failed write to one recipient does not prevent delivery to any other
recipient whose write succeeds. -/
theorem C2_broadcast_recipients (st : ChannelState) (kf : List Nat)
    (from_station : Station) (t : ℚ) (writeOk : Station → Bool)
    (noise : List Nat → List Nat)
    (h3 : 3 ≤ kf.length) (h14 : 14 ≤ (kiss_unescape (kf.drop 1)).length) :
    (∀ x : Station,
      x ∈ (transmit st kf from_station t writeOk noise).2.recipients ↔
        ((∃ ps ∈ st.stations, x ∈ ps.2) ∧ x.id ≠ from_station.id)) ∧
    from_station ∉ (transmit st kf from_station t writeOk noise).2.recipients ∧
    (∀ x ∈ (transmit st kf from_station t writeOk noise).2.recipients,
      writeOk x = true →
        x ∈ (transmit st kf from_station t writeOk noise).2.delivered) := by
  have h3' : ¬ kf.length < 3 := not_lt.mpr h3
  have h14' : ¬ (kiss_unescape (kf.drop 1)).length < 14 := not_lt.mpr h14
  rw [transmit_recipients_eq st kf from_station t _ noise h3' h14',
    transmit_delivered_eq st kf from_station t _ noise h3' h14']
  refine ⟨?_, ?_, ?_⟩
  · intro x
    simp only [List.mem_filter, List.mem_flatten, List.mem_map, bne_iff_ne, ne_eq]
    constructor
    · rintro ⟨⟨l, ⟨ps, hps, rfl⟩, hx⟩, hid⟩
      exact ⟨⟨ps, hps, hx⟩, hid⟩
    · rintro ⟨⟨ps, hps, hx⟩, hid⟩
      exact ⟨⟨ps.2, ⟨ps, hps, rfl⟩, hx⟩, hid⟩
  · intro hmem
    have h := (List.mem_filter.mp hmem).2
    simp at h
  · intro x hx hw
    exact List.mem_filter.mpr ⟨hx, hw⟩

/-- Witness for C2: three stations across two ports; the sender is excluded
and a recipient with a succeeding write is delivered to even though the
other recipient's write fails. -/
theorem C2_broadcast_recipients_witness :
    (⟨8002, 3, 0, 0⟩ : Station) ∈
      (transmit ⟨[(8001, [⟨8001, 1, 0, 0⟩, ⟨8001, 2, 0, 0⟩]),
          (8002, [⟨8002, 3, 0, 0⟩])], 3, 0, false, 0, 0, 0, []⟩
        (0 :: List.replicate 14 0x40) ⟨8001, 1, 0, 0⟩ 0
        (fun x => x.id != 2) id).2.delivered :=
  ((C2_broadcast_recipients _ _ _ _ _ _ (by decide) (by decide)).2.2)
    ⟨8002, 3, 0, 0⟩ (by decide) (by decide)

/-- After overwriting key `k` with `v` in the digest table and filtering
with a predicate that keeps `(k, v)`, looking up `k` finds `v`. -/
theorem dictGet_filter_dictSet (k : List Nat) (v : ℚ) (l : List (List Nat × ℚ))
    (p : List Nat × ℚ → Bool) (hp : p (k, v) = true) :
    dictGet k ((dictSet k v l).filter p) = some v := by
  induction l with
  | nil =>
      simp only [dictSet, List.filter_cons, List.filter_nil, hp, if_pos]
      simp [dictGet]
  | cons e rest ih =>
      by_cases he : e.1 = k
      · simp only [dictSet, if_pos he]
        rw [List.filter_cons]
        have hpe : p (e.1, v) = true := by rw [he]; exact hp
        rw [if_pos hpe]
        simp [dictGet, he]
      · simp only [dictSet, if_neg he]
        rw [List.filter_cons]
        by_cases hpe : p e = true
        · rw [if_pos hpe]
          simpa [dictGet, he] using ih
        · rw [if_neg hpe]
          exact ih

/-- Every digest entry surviving a `transmit` at time `t` is at most 5
seconds old. -/
theorem transmit_recent_frames_bound (st : ChannelState) (kf : List Nat)
    (s : Station) (t : ℚ) (ok : Station → Bool) (noise : List Nat → List Nat)
    (h3 : ¬ kf.length < 3) (h14 : ¬ (kiss_unescape (kf.drop 1)).length < 14) :
    ∀ e ∈ (transmit st kf s t ok noise).1.recent_frames, t - e.2 ≤ 5 := by
  intro e he
  rw [transmit_recent_frames_eq st kf s t ok noise h3 h14] at he
  have hp := (List.mem_filter.mp he).2
  simp only [Bool.not_eq_true', decide_eq_false_iff_not, not_lt] at hp
  exact hp

/-- C3: with byte-identical unescaped frames, a fresh digest table entry
and all writes succeeding, the first `transmit` is not flagged duplicate,
a second one less than 1 second later is, both are still delivered (their
fan-out equals the full recipient snapshot); after each transmission every
digest entry is at most 5 seconds old; and a third byte-identical
`transmit` more than 5 seconds after the second is not flagged. -/
theorem C3_duplicate_detection (st0 : ChannelState) (kf1 kf2 kf3 : List Nat)
    (s1 s2 s3 : Station) (t1 t2 t3 : ℚ) (n1 n2 n3 : List Nat → List Nat)
    (h3a : 3 ≤ kf1.length) (h3b : 3 ≤ kf2.length) (h3c : 3 ≤ kf3.length)
    (hsame2 : kiss_unescape (kf2.drop 1) = kiss_unescape (kf1.drop 1))
    (hsame3 : kiss_unescape (kf3.drop 1) = kiss_unescape (kf1.drop 1))
    (h14 : 14 ≤ (kiss_unescape (kf1.drop 1)).length)
    (hfresh : dictGet (frame_hash (kiss_unescape (kf1.drop 1)))
      st0.recent_frames = none)
    (ht21 : 0 ≤ t2 - t1) (hlt1 : t2 - t1 < 1) (hgt5 : t3 - t2 > 5) :
    (transmit st0 kf1 s1 t1 (fun _ => true) n1).2.is_dupe = false ∧
    (transmit (transmit st0 kf1 s1 t1 (fun _ => true) n1).1 kf2 s2 t2
      (fun _ => true) n2).2.is_dupe = true ∧
    (transmit st0 kf1 s1 t1 (fun _ => true) n1).2.dropped = false ∧
    (transmit (transmit st0 kf1 s1 t1 (fun _ => true) n1).1 kf2 s2 t2
      (fun _ => true) n2).2.dropped = false ∧
    (transmit st0 kf1 s1 t1 (fun _ => true) n1).2.delivered =
      (transmit st0 kf1 s1 t1 (fun _ => true) n1).2.recipients ∧
    (transmit (transmit st0 kf1 s1 t1 (fun _ => true) n1).1 kf2 s2 t2
      (fun _ => true) n2).2.delivered =
      (transmit (transmit st0 kf1 s1 t1 (fun _ => true) n1).1 kf2 s2 t2
        (fun _ => true) n2).2.recipients ∧
    (∀ e ∈ (transmit st0 kf1 s1 t1 (fun _ => true) n1).1.recent_frames,
      t1 - e.2 ≤ 5) ∧
    (∀ e ∈ (transmit (transmit st0 kf1 s1 t1 (fun _ => true) n1).1 kf2 s2 t2
        (fun _ => true) n2).1.recent_frames, t2 - e.2 ≤ 5) ∧
    (transmit (transmit (transmit st0 kf1 s1 t1 (fun _ => true) n1).1 kf2 s2 t2
      (fun _ => true) n2).1 kf3 s3 t3 (fun _ => true) n3).2.is_dupe = false := by
  have h3a' : ¬ kf1.length < 3 := not_lt.mpr h3a
  have h3b' : ¬ kf2.length < 3 := not_lt.mpr h3b
  have h3c' : ¬ kf3.length < 3 := not_lt.mpr h3c
  have h14a' : ¬ (kiss_unescape (kf1.drop 1)).length < 14 := not_lt.mpr h14
  have h14b' : ¬ (kiss_unescape (kf2.drop 1)).length < 14 := by
    rw [hsame2]; exact not_lt.mpr h14
  have h14c' : ¬ (kiss_unescape (kf3.drop 1)).length < 14 := by
    rw [hsame3]; exact not_lt.mpr h14
  have hkeep1 : (fun e : List Nat × ℚ => ! decide (t1 - e.2 > 5))
      (frame_hash (kiss_unescape (kf1.drop 1)), t1) = true := by simp
  have hkeep2 : (fun e : List Nat × ℚ => ! decide (t2 - e.2 > 5))
      (frame_hash (kiss_unescape (kf1.drop 1)), t2) = true := by simp
  have hget1 : dictGet (frame_hash (kiss_unescape (kf1.drop 1)))
      (transmit st0 kf1 s1 t1 (fun _ => true) n1).1.recent_frames = some t1 := by
    rw [transmit_recent_frames_eq st0 kf1 s1 t1 _ n1 h3a' h14a']
    exact dictGet_filter_dictSet _ _ _ _ hkeep1
  have hget2 : dictGet (frame_hash (kiss_unescape (kf1.drop 1)))
      (transmit (transmit st0 kf1 s1 t1 (fun _ => true) n1).1 kf2 s2 t2
        (fun _ => true) n2).1.recent_frames = some t2 := by
    rw [transmit_recent_frames_eq _ kf2 s2 t2 _ n2 h3b' h14b', hsame2]
    exact dictGet_filter_dictSet _ _ _ _ hkeep2
  refine ⟨?_, ?_, ?_, ?_, ?_, ?_, ?_, ?_, ?_⟩
  · rw [transmit_is_dupe_eq st0 kf1 s1 t1 _ n1 h3a' h14a', hfresh]
  · rw [transmit_is_dupe_eq _ kf2 s2 t2 _ n2 h3b' h14b', hsame2, hget1]
    simp [hlt1]
  · exact transmit_dropped_false st0 kf1 s1 t1 _ n1 h3a' h14a'
  · exact transmit_dropped_false _ kf2 s2 t2 _ n2 h3b' h14b'
  · rw [transmit_delivered_eq st0 kf1 s1 t1 _ n1 h3a' h14a',
      transmit_recipients_eq st0 kf1 s1 t1 _ n1 h3a' h14a']
    exact List.filter_true _
  · rw [transmit_delivered_eq _ kf2 s2 t2 _ n2 h3b' h14b',
      transmit_recipients_eq _ kf2 s2 t2 _ n2 h3b' h14b']
    exact List.filter_true _
  · exact transmit_recent_frames_bound st0 kf1 s1 t1 _ n1 h3a' h14a'
  · exact transmit_recent_frames_bound _ kf2 s2 t2 _ n2 h3b' h14b'
  · rw [transmit_is_dupe_eq _ kf3 s3 t3 _ n3 h3c' h14c', hsame3, hget2]
    have hno : ¬ (t3 - t2 < 1) := by linarith
    simp [hno]

/-- Witness for C3: an empty channel, the same 15-byte KISS frame
transmitted at times 0, 1/2 and 6. -/
theorem C3_duplicate_detection_witness :
    (transmit ⟨[], 0, 0, false, 0, 0, 0, []⟩ (0 :: List.replicate 14 0x40)
      ⟨8001, 1, 0, 0⟩ 0 (fun _ => true) id).2.is_dupe = false ∧
    (transmit (transmit ⟨[], 0, 0, false, 0, 0, 0, []⟩
        (0 :: List.replicate 14 0x40) ⟨8001, 1, 0, 0⟩ 0 (fun _ => true) id).1
      (0 :: List.replicate 14 0x40) ⟨8001, 1, 0, 0⟩ (1/2)
      (fun _ => true) id).2.is_dupe = true ∧
    (transmit (transmit (transmit ⟨[], 0, 0, false, 0, 0, 0, []⟩
          (0 :: List.replicate 14 0x40) ⟨8001, 1, 0, 0⟩ 0 (fun _ => true) id).1
        (0 :: List.replicate 14 0x40) ⟨8001, 1, 0, 0⟩ (1/2) (fun _ => true) id).1
      (0 :: List.replicate 14 0x40) ⟨8001, 1, 0, 0⟩ 6
      (fun _ => true) id).2.is_dupe = false := by
  have h := C3_duplicate_detection ⟨[], 0, 0, false, 0, 0, 0, []⟩
    (0 :: List.replicate 14 0x40) (0 :: List.replicate 14 0x40)
    (0 :: List.replicate 14 0x40) ⟨8001, 1, 0, 0⟩ ⟨8001, 1, 0, 0⟩ ⟨8001, 1, 0, 0⟩
    0 (1/2) 6 id id id (by decide) (by decide) (by decide) rfl rfl (by decide)
    rfl (by norm_num) (by norm_num) (by norm_num)
  exact ⟨h.1, h.2.1, h.2.2.2.2.2.2.2.2⟩

/-- C4: frames failing a length check are silently dropped — the state is
unchanged, nothing is delivered and, the model being a total function, no
exception arises; a frame whose unescaped content is exactly the 14
mandatory address bytes decodes to a non-fatal cannot-classify result
(frame type UNKNOWN, control left at its default, raw bytes kept), and
`transmit` still relays its raw bytes re-encoded to the other stations. -/
theorem C4_short_and_unclassifiable (st : ChannelState) (kf : List Nat)
    (s : Station) (t : ℚ) (ok : Station → Bool) (noise : List Nat → List Nat) :
    (kf.length < 3 ∨ (kiss_unescape (kf.drop 1)).length < 14 →
      transmit st kf s t ok noise = (st, { dropped := true })) ∧
    (∀ data : List Nat, data.length = 14 →
      (decode_ax25_frame data).frame_type = FrameType.UNKNOWN ∧
      (decode_ax25_frame data).control = 0 ∧
      (decode_ax25_frame data).raw = data) ∧
    (st.ber = 0 → 3 ≤ kf.length → (kiss_unescape (kf.drop 1)).length = 14 →
      (transmit st kf s t ok noise).2.dropped = false ∧
      (transmit st kf s t ok noise).2.kiss_out =
        reencoded_frame (kf.getD 0 0) (kiss_unescape (kf.drop 1)) ∧
      (transmit st kf s t ok noise).2.recipients =
        ((st.stations.map Prod.snd).flatten).filter (fun x => x.id != s.id)) := by
  refine ⟨transmit_dropped_eq st kf s t ok noise, ?_, ?_⟩
  · intro data hdata
    have hno : ¬ data.length < 14 := by omega
    have hvias : ∀ b : Bool, decode_vias data 14 b = ([], 14) := by
      intro b
      rw [decode_vias, dif_neg]
      rintro ⟨-, hc⟩
      omega
    simp only [decode_ax25_frame, if_neg hno, hvias]
    rw [if_neg (by omega : ¬ ((([] : List AX25Address), 14).2 < data.length))]
    exact ⟨rfl, rfl, rfl⟩
  · intro hber hk3 hk14
    have h3' : ¬ kf.length < 3 := not_lt.mpr hk3
    have h14' : ¬ (kiss_unescape (kf.drop 1)).length < 14 := by omega
    refine ⟨transmit_dropped_false st kf s t ok noise h3' h14', ?_,
      transmit_recipients_eq st kf s t ok noise h3' h14'⟩
    rw [transmit_kiss_out_eq st kf s t ok noise h3' h14', hber,
      if_neg (by norm_num : ¬ ((0 : ℚ) > 0)), reencoded_frame]

/-- Witness for C4: a 2-byte frame is dropped with the state unchanged; a
14-byte unescaped frame decodes as UNKNOWN and is still relayed. -/
theorem C4_short_and_unclassifiable_witness :
    (transmit ⟨[], 0, 0, false, 0, 0, 0, []⟩ [0] ⟨8001, 1, 0, 0⟩ 0
        (fun _ => true) id =
      (⟨[], 0, 0, false, 0, 0, 0, []⟩, { dropped := true })) ∧
    (decode_ax25_frame (List.replicate 14 1)).frame_type = FrameType.UNKNOWN ∧
    (transmit ⟨[], 0, 0, false, 0, 0, 0, []⟩ (0 :: List.replicate 14 1)
      ⟨8001, 1, 0, 0⟩ 0 (fun _ => true) id).2.dropped = false :=
  ⟨(C4_short_and_unclassifiable ⟨[], 0, 0, false, 0, 0, 0, []⟩ [0] ⟨8001, 1, 0, 0⟩
      0 (fun _ => true) id).1 (Or.inl (by decide)),
   ((C4_short_and_unclassifiable ⟨[], 0, 0, false, 0, 0, 0, []⟩ [0] ⟨8001, 1, 0, 0⟩
      0 (fun _ => true) id).2.1 (List.replicate 14 1) (by decide)).1,
   ((C4_short_and_unclassifiable ⟨[], 0, 0, false, 0, 0, 0, []⟩
      (0 :: List.replicate 14 1) ⟨8001, 1, 0, 0⟩ 0 (fun _ => true) id).2.2
      rfl (by decide) (by decide)).1⟩

end AXTerm
